import Mathlib

/-!
Shallow embedding of `src/matcalc/relaxation.py` (module `matcalc.relaxation`).

Numeric scalars (Python floats) are modelled by `Int`: no claim below depends on
real-number arithmetic, only on which values are stored, appended, serialized
and returned.  External collaborators (ASE atoms/optimizers, pymatgen lattice
extraction, the pickle module, the process stdout stream and the file system)
are modelled explicitly as data so that the module's observable behaviour --
list growth, serialization, returned keys, emitted output, file writes -- can
be stated and proved.
-/

namespace Matcalc

/-- Model of an external ASE calculator (`ase.calculators.calculator.Calculator`):
computes energy, forces and stress from the current positions and cell. -/
structure Calculator where
  energyOf : List (List Int) → List (List Int) → Int
  forcesOf : List (List Int) → List (List Int) → List (List Int)
  stressOf : List (List Int) → List (List Int) → List Int

/-- Model of an `ase.Atoms` object: per-atom chemical identity and positions, a
3x3 periodic cell, and the optionally attached calculator. -/
structure Atoms where
  atomicNumbers : List Int
  positions : List (List Int)
  cell : List (List Int)
  calculator : Option Calculator

/-- Model of `atoms.set_calculator(calc)` (relaxation.py line 139). -/
def Atoms.set_calculator (a : Atoms) (c : Calculator) : Atoms :=
  { a with calculator := some c }

/-- Model of `atoms.get_potential_energy()`: delegates to the attached
calculator.  Calling it with no calculator attached raises in Python; that
path is never reached by the driver, which always attaches first. -/
def Atoms.get_potential_energy (a : Atoms) : Int :=
  match a.calculator with
  | some c => c.energyOf a.positions a.cell
  | none => 0

/-- Model of `atoms.get_forces()`. -/
def Atoms.get_forces (a : Atoms) : List (List Int) :=
  match a.calculator with
  | some c => c.forcesOf a.positions a.cell
  | none => []

/-- Model of `atoms.get_stress()`. -/
def Atoms.get_stress (a : Atoms) : List Int :=
  match a.calculator with
  | some c => c.stressOf a.positions a.cell
  | none => []

/-- Model of `atoms.get_positions()`. -/
def Atoms.get_positions (a : Atoms) : List (List Int) :=
  a.positions

/-- Model of `atoms.get_cell()[:]` (the cell as a plain matrix). -/
def Atoms.get_cell (a : Atoms) : List (List Int) :=
  a.cell

/-- Model of `atoms.get_atomic_numbers()`. -/
def Atoms.get_atomic_numbers (a : Atoms) : List Int :=
  a.atomicNumbers

/-- Model of a pymatgen `Structure`: the caller-side representation converted
to/from `Atoms` at the driver boundary. -/
structure Structure where
  atomicNumbers : List Int
  positions : List (List Int)
  cell : List (List Int)
deriving DecidableEq

/-- Model of `AseAtomsAdaptor().get_atoms(structure)` (relaxation.py line 138):
builds a fresh native `Atoms` copy of the caller's structure; no calculator is
attached yet. -/
def AseAtomsAdaptor.get_atoms (s : Structure) : Atoms :=
  { atomicNumbers := s.atomicNumbers, positions := s.positions,
    cell := s.cell, calculator := none }

/-- Model of `AseAtomsAdaptor().get_structure(atoms)` (relaxation.py line 152):
converts the native atoms back to the caller representation. -/
def AseAtomsAdaptor.get_structure (a : Atoms) : Structure :=
  { atomicNumbers := a.atomicNumbers, positions := a.positions, cell := a.cell }

/-- Embedding of `TrajectoryObserver` (relaxation.py lines 40-57): the observed
atoms (Python holds a shared mutable reference; updates by the optimizer are
modelled by updating this field) and the five append-only history lists. -/
structure TrajectoryObserver where
  atoms : Atoms
  energies : List Int
  forces : List (List (List Int))
  stresses : List (List Int)
  atom_positions : List (List (List Int))
  cells : List (List (List Int))

/-- Embedding of `TrajectoryObserver.__init__` (lines 45-57): five empty lists. -/
def TrajectoryObserver.init (atoms : Atoms) : TrajectoryObserver :=
  { atoms := atoms, energies := [], forces := [], stresses := [],
    atom_positions := [], cells := [] }

/-- Embedding of `TrajectoryObserver.__call__` (lines 59-65): append the current
energy, forces, stress, positions and cell to the five lists. -/
def TrajectoryObserver.call (ob : TrajectoryObserver) : TrajectoryObserver :=
  { ob with
    energies := ob.energies ++ [ob.atoms.get_potential_energy],
    forces := ob.forces ++ [ob.atoms.get_forces],
    stresses := ob.stresses ++ [ob.atoms.get_stress],
    atom_positions := ob.atom_positions ++ [ob.atoms.get_positions],
    cells := ob.cells ++ [ob.atoms.get_cell] }

/-- Embedding of `TrajectoryObserver.__len__` (lines 70-71): the length of the
energies list. -/
def TrajectoryObserver.len (ob : TrajectoryObserver) : Nat :=
  ob.energies.length

/-- Model of the in-place mutation the optimizer performs on the shared `Atoms`
object the observer holds (the `ExpCellFilter` at line 143 wraps that same
object, so stepping the filter mutates the atoms the observer reads). -/
def stepAtoms (f : Atoms → Atoms) (ob : TrajectoryObserver) : TrajectoryObserver :=
  { ob with atoms := f ob.atoms }

/-- Equal-length well-formedness of the five history lists: every reachable
observer state satisfies it (proved below). -/
def TrajectoryObserver.wf (ob : TrajectoryObserver) : Prop :=
  ob.forces.length = ob.energies.length ∧
  ob.stresses.length = ob.energies.length ∧
  ob.atom_positions.length = ob.energies.length ∧
  ob.cells.length = ob.energies.length

/-- Normalization of a Python sequence index (standard sequence semantics as
used by `list.__getitem__`): a negative index counts from the end; the result
is `none` exactly when Python raises `IndexError`. -/
def pyIdx (n : Nat) (i : Int) : Option Nat :=
  if i < 0 then
    if 0 ≤ i + (n : Int) then some (i + (n : Int)).toNat else none
  else
    if i < (n : Int) then some i.toNat else none

/-- Model of the Python list indexing `xs[i]`. -/
def pyGet (xs : List α) (i : Int) : Option α :=
  (pyIdx xs.length i).bind fun j => xs.get? j

/-- Embedding of `TrajectoryObserver.__getitem__` (lines 67-68): the 5-tuple
`(energies[item], forces[item], stresses[item], cells[item], atom_positions[item])`,
indexed left to right exactly as the source line evaluates; `none` models the
`IndexError` raised by the first out-of-range lookup. -/
def TrajectoryObserver.getitem (ob : TrajectoryObserver) (i : Int) :
    Option (Int × List (List Int) × List Int × List (List Int) × List (List Int)) :=
  (pyGet ob.energies i).bind fun e =>
  (pyGet ob.forces i).bind fun f =>
  (pyGet ob.stresses i).bind fun s =>
  (pyGet ob.cells i).bind fun c =>
  (pyGet ob.atom_positions i).map fun p => (e, f, s, c, p)

/-- Model of the dictionary `out` built by `TrajectoryObserver.save`
(relaxation.py lines 79-86), with the exact source keys as field names. -/
structure SavedDict where
  energy : List Int
  forces : List (List (List Int))
  stresses : List (List Int)
  atom_positions : List (List (List Int))
  cell : List (List (List Int))
  atomic_number : List Int
deriving DecidableEq

/-- Model of the serialized byte blob written by `pickle.dump`.  The pickle
module is external; its documented contract is that a record round-trips
through the identical serialization scheme, so the blob is modelled by the
record it decodes back to. -/
structure Blob where
  payload : SavedDict
deriving DecidableEq

/-- Model of `pickle.dump(out, file)`: serialize the record. -/
def pickleDump (d : SavedDict) : Blob :=
  Blob.mk d

/-- Model of `pickle.load` through the same serialization scheme. -/
def pickleLoad (b : Blob) : SavedDict :=
  b.payload

/-- Model of the file system visible to this module: a path-to-blob map. -/
abbrev FS : Type :=
  List (String × Blob)

/-- Model of `open(filename, "wb")` followed by a whole-file write: mode `wb`
truncates, so any existing content at the path is replaced. -/
def fsWrite (fs : FS) (path : String) (b : Blob) : FS :=
  (path, b) :: List.filter (fun e => e.1 ≠ path) fs

/-- Reading the blob stored at a path, if any. -/
def fsRead (fs : FS) (path : String) : Option Blob :=
  (List.find? (fun e => e.1 == path) fs).map (fun e => e.2)

/-- Embedding of the record built by `TrajectoryObserver.save` (lines 79-86). -/
def TrajectoryObserver.saveDict (ob : TrajectoryObserver) : SavedDict :=
  { energy := ob.energies, forces := ob.forces, stresses := ob.stresses,
    atom_positions := ob.atom_positions, cell := ob.cells,
    atomic_number := ob.atoms.get_atomic_numbers }

/-- Embedding of `TrajectoryObserver.save` (lines 73-88): pickle the record and
write it to `filename`, replacing existing content. -/
def TrajectoryObserver.save (ob : TrajectoryObserver) (filename : String) (fs : FS) : FS :=
  fsWrite fs filename (pickleDump ob.saveDict)

/-- Model of an external ASE optimizer class (for example `FIRE` or `BFGS`):
its step update rule on the filtered atoms, its convergence test against
`fmax`, and the diagnostic text a run prints to stdout.  The numerics are
external black boxes; only the calling contract matters here. -/
structure OptClass where
  stepf : Atoms → Atoms
  convergedAt : Atoms → Int → Bool
  output : List String

/-- Model of the eight external optimizer implementations imported at
relaxation.py lines 10-16. -/
structure OptImpls where
  fire : OptClass
  bfgs : OptClass
  lbfgs : OptClass
  lbfgsLineSearch : OptClass
  mdmin : OptClass
  sciPyFminCG : OptClass
  sciPyFminBFGS : OptClass
  bfgsLineSearch : OptClass

/-- Embedding of the module-level `OPTIMIZERS` dict (relaxation.py lines
25-34), in source order. -/
def OPTIMIZERS (impls : OptImpls) : List (String × OptClass) :=
  [("FIRE", impls.fire), ("BFGS", impls.bfgs), ("LBFGS", impls.lbfgs),
   ("LBFGSLineSearch", impls.lbfgsLineSearch), ("MDMin", impls.mdmin),
   ("SciPyFminCG", impls.sciPyFminCG), ("SciPyFminBFGS", impls.sciPyFminBFGS),
   ("BFGSLineSearch", impls.bfgsLineSearch)]

/-- Python exception kinds raised by the embedded code paths. -/
inductive PyError
| valueError (msg : String)
| typeError (msg : String)
deriving DecidableEq

/-- Message of the `ValueError` at relaxation.py line 117. -/
def errNoneMsg : String :=
  "Optimizer cannot be None"

/-- Message of the `TypeError` Python raises when `self.opt_class` is `None`
and `self.opt_class(atoms)` is called at relaxation.py line 144. -/
def errNotCallable : String :=
  "NoneType object is not callable"

/-- The `optimizer` argument of `RelaxCalc.__init__`: a name string, a
pre-built optimizer object, or an explicit `None`. -/
inductive OptSpec
| name (s : String)
| inst (c : OptClass)
| null

/-- The state stored on `self` by `RelaxCalc.__init__` (lines 113-125).
`optClass` is an `Option` because `OPTIMIZERS.get(optimizer, None)` stores
`None` for a name that is not a registry key. -/
structure RelaxCalcState where
  calculator : Calculator
  optClass : Option OptClass
  fmax : Int
  interval : Nat
  steps : Nat
  traj_file : Option String

/-- Embedding of `RelaxCalc.__init__` (relaxation.py lines 94-125): a string
name is looked up with `OPTIMIZERS.get(optimizer, None)` (no error on a miss);
an explicit `None` raises `ValueError`; an optimizer object is stored as is. -/
def RelaxCalc.init (impls : OptImpls) (calculator : Calculator) (optimizer : OptSpec)
    (fmax : Int) (steps : Nat) (traj_file : Option String) (interval : Nat) :
    Except PyError RelaxCalcState :=
  match optimizer with
  | OptSpec.name s =>
      Except.ok { calculator := calculator, optClass := List.lookup s (OPTIMIZERS impls),
                  fmax := fmax, interval := interval, steps := steps, traj_file := traj_file }
  | OptSpec.null => Except.error (PyError.valueError errNoneMsg)
  | OptSpec.inst c =>
      Except.ok { calculator := calculator, optClass := some c,
                  fmax := fmax, interval := interval, steps := steps, traj_file := traj_file }

/-- Model of `Dynamics.call_observers` for an observer attached with
`optimizer.attach(obs, interval=interval)` (relaxation.py line 145): the
observer fires when the current step count is divisible by the interval. -/
def callObservers (interval nsteps : Nat) (ob : TrajectoryObserver) : TrajectoryObserver :=
  if nsteps % interval == 0 then ob.call else ob

/-- Model of the while loop inside the external ASE `Optimizer.run`: while not
converged and steps remain, perform one optimizer step on the shared atoms,
increment the step counter, and fire the attached observers.  The fuel
argument is the number of steps still allowed by `max_steps`. -/
def runAux (oc : OptClass) (fmax : Int) (interval : Nat) :
    Nat → Nat → TrajectoryObserver → TrajectoryObserver
  | 0, _, ob => ob
  | fuel + 1, nsteps, ob =>
      if oc.convergedAt ob.atoms fmax then ob
      else runAux oc fmax interval fuel (nsteps + 1)
        (callObservers interval (nsteps + 1) (stepAtoms oc.stepf ob))

/-- Model of the external ASE `optimizer.run(fmax=fmax, steps=steps)`
(relaxation.py line 146): the observers are fired once at step count 0 before
the loop, then the loop runs. -/
def runLoop (oc : OptClass) (fmax : Int) (steps interval : Nat)
    (ob : TrajectoryObserver) : TrajectoryObserver :=
  runAux oc fmax interval steps 0 (callObservers interval 0 ob)

/-- Count of the captures the loop body of `runAux` triggers, defined on the
atoms trajectory alone so that it is independent of the observer lists. -/
def ticksAux (oc : OptClass) (fmax : Int) (interval : Nat) :
    Nat → Nat → Atoms → Nat
  | 0, _, _ => 0
  | fuel + 1, nsteps, a =>
      if oc.convergedAt a fmax then 0
      else (if (nsteps + 1) % interval == 0 then 1 else 0) +
        ticksAux oc fmax interval fuel (nsteps + 1) (oc.stepf a)

/-- Number of interval-triggered observer captures during one optimizer run:
the capture at step count 0 plus the captures triggered inside the loop. -/
def loopTicks (oc : OptClass) (fmax : Int) (steps interval : Nat) (a : Atoms) : Nat :=
  (if 0 % interval == 0 then 1 else 0) + ticksAux oc fmax interval steps 0 a

/-- Embedding of relaxation.py lines 142-147: build the observer on the shared
atoms, run the optimizer with the observer attached at `interval`, then force
one final capture (`obs()` at line 147) regardless of interval alignment. -/
def RelaxCalc.runObserver (oc : OptClass) (fmax : Int) (steps interval : Nat)
    (atoms : Atoms) : TrajectoryObserver :=
  (runLoop oc fmax steps interval (TrajectoryObserver.init atoms)).call

/-- Model of `contextlib.redirect_stdout(stream)` around a body that may emit
text and may raise: emissions go to the fresh `StringIO` buffer, the process
stdout is untouched, and the real stream is restored on both the normal and
the exceptional exit path.  Components of the result: the body outcome, the
process stdout after the block, and the content of the (discarded) buffer. -/
def redirectStdout (out : List String) (body : Except PyError (α × List String)) :
    Except PyError α × List String × List String :=
  match body with
  | Except.ok (a, emitted) => (Except.ok a, out, emitted)
  | Except.error e => (Except.error e, out, [])

/-- Observable milestones of one `RelaxCalc.calc` call, in execution order. -/
inductive Ev
| convertIn
| setCalc
| makeObs
| wrapFilter
| makeOpt
| attachObs
| runOpt
| finalCapture
| saveTraj
| convertOut
deriving DecidableEq

/-- Result-dictionary values: the converted-back structure or a lattice scalar. -/
inductive ResVal
| struct (s : Structure)
| num (x : Int)
deriving DecidableEq

/-- Model of the external pymatgen lattice-property extraction
(`final_structure.lattice` at relaxation.py line 153): each scalar is an
external function of the final cell matrix. -/
structure LatticeFns where
  a : List (List Int) → Int
  b : List (List Int) → Int
  c : List (List Int) → Int
  alpha : List (List Int) → Int
  beta : List (List Int) → Int
  gamma : List (List Int) → Int
  volume : List (List Int) → Int

/-- Everything observable about one `RelaxCalc.calc` call: the returned
mapping or the raised error, the caller's structure after the call, the file
system, the process stdout, the content captured by the discarded `StringIO`
buffer, and the event trace. -/
structure CalcResult where
  res : Except PyError (List (String × ResVal))
  structureAfter : Structure
  fs : FS
  stdout : List String
  captured : List String
  events : List Ev

/-- Embedding of `RelaxCalc.calc` (relaxation.py lines 127-164).  The caller's
structure is converted to a fresh native copy (line 138), the calculator is
attached (line 139), and everything from observer construction through the
forced final capture runs under `redirect_stdout` (lines 140-147); with
`opt_class` equal to `None` (unknown optimizer name), line 144 raises a
`TypeError` inside that block.  On success the trajectory is optionally saved
(lines 148-149), the filter is unwrapped -- `atoms.atoms` is the same shared
object the observer mutated, so it equals the observer's atoms (line 150) --
and the result dictionary is built (lines 152-164). -/
def RelaxCalc.calc (L : LatticeFns) (rc : RelaxCalcState) (struct : Structure)
    (fs : FS) (out : List String) : CalcResult :=
  let atoms := (AseAtomsAdaptor.get_atoms struct).set_calculator rc.calculator
  let body : Except PyError (TrajectoryObserver × List String) :=
    match rc.optClass with
    | none => Except.error (PyError.typeError errNotCallable)
    | some oc =>
        Except.ok (RelaxCalc.runObserver oc rc.fmax rc.steps rc.interval atoms, oc.output)
  match redirectStdout out body with
  | (Except.error e, out2, cap) =>
      { res := Except.error e, structureAfter := struct, fs := fs, stdout := out2,
        captured := cap,
        events := [Ev.convertIn, Ev.setCalc, Ev.makeObs, Ev.wrapFilter] }
  | (Except.ok ob, out2, cap) =>
      let fs2 := match rc.traj_file with
        | some p => ob.save p fs
        | none => fs
      let finalAtoms := ob.atoms
      let final_structure := AseAtomsAdaptor.get_structure finalAtoms
      { res := Except.ok
          [("final_structure", ResVal.struct final_structure),
           ("a", ResVal.num (L.a finalAtoms.cell)),
           ("b", ResVal.num (L.b finalAtoms.cell)),
           ("c", ResVal.num (L.c finalAtoms.cell)),
           ("alpha", ResVal.num (L.alpha finalAtoms.cell)),
           ("beta", ResVal.num (L.beta finalAtoms.cell)),
           ("gamma", ResVal.num (L.gamma finalAtoms.cell)),
           ("volume", ResVal.num (L.volume finalAtoms.cell))],
        structureAfter := struct, fs := fs2, stdout := out2, captured := cap,
        events := [Ev.convertIn, Ev.setCalc, Ev.makeObs, Ev.wrapFilter, Ev.makeOpt,
          Ev.attachObs, Ev.runOpt, Ev.finalCapture] ++
          (match rc.traj_file with | some _ => [Ev.saveTraj] | none => []) ++
          [Ev.convertOut] }

/-- Operations that touch an observer between its creation and its disposal:
a capture (`obs()`) or an optimizer mutation of the shared atoms. -/
inductive ObsOp
| capture
| mutate (f : Atoms → Atoms)

/-- Application of a sequence of operations to an observer. -/
def applyObsOps : List ObsOp → TrajectoryObserver → TrajectoryObserver
  | [], ob => ob
  | ObsOp.capture :: ops, ob => applyObsOps ops ob.call
  | ObsOp.mutate f :: ops, ob => applyObsOps ops (stepAtoms f ob)

/-- Concrete calculator used to evaluate the embeddings on closed inputs. -/
def sampleCalculator : Calculator :=
  { energyOf := fun _ _ => 5, forcesOf := fun p _ => p,
    stressOf := fun _ _ => [1, 2, 3, 4, 5, 6] }

/-- Concrete one-atom input structure. -/
def sampleStructure : Structure :=
  { atomicNumbers := [1], positions := [[0, 0, 0]],
    cell := [[1, 0, 0], [0, 1, 0], [0, 0, 1]] }

/-- Concrete native atoms with the calculator attached, as `calc` builds them. -/
def sampleAtoms : Atoms :=
  (AseAtomsAdaptor.get_atoms sampleStructure).set_calculator sampleCalculator

/-- Concrete observer holding one captured snapshot. -/
def sampleOb : TrajectoryObserver :=
  (TrajectoryObserver.init sampleAtoms).call

/-- Concrete optimizer model: identity steps, never converges, one log line. -/
def sampleOptClass : OptClass :=
  { stepf := id, convergedAt := fun _ _ => false, output := ["opt log line"] }

/-- Concrete bundle of the eight registry implementations. -/
def sampleImpls : OptImpls :=
  { fire := sampleOptClass, bfgs := sampleOptClass, lbfgs := sampleOptClass,
    lbfgsLineSearch := sampleOptClass, mdmin := sampleOptClass,
    sciPyFminCG := sampleOptClass, sciPyFminBFGS := sampleOptClass,
    bfgsLineSearch := sampleOptClass }

/-- Concrete lattice-extraction model returning distinct constants. -/
def sampleLattice : LatticeFns :=
  { a := fun _ => 1, b := fun _ => 2, c := fun _ => 3, alpha := fun _ => 4,
    beta := fun _ => 5, gamma := fun _ => 6, volume := fun _ => 7 }

/-- Concrete driver state with a valid optimizer and no trajectory file. -/
def sampleRC : RelaxCalcState :=
  { calculator := sampleCalculator, optClass := some sampleOptClass,
    fmax := 1, interval := 1, steps := 2, traj_file := none }

/-- Concrete trajectory path for the persistence claims. -/
def trajPath : String :=
  "traj.pickle"

/-- Concrete driver state that also saves the trajectory. -/
def sampleRCsave : RelaxCalcState :=
  { sampleRC with traj_file := some trajPath }

/-- Concrete driver state as produced by an unknown optimizer name: the
registry miss stores `none` for the optimizer class. -/
def rcUnknown : RelaxCalcState :=
  { calculator := sampleCalculator, optClass := none,
    fmax := 1, interval := 1, steps := 2, traj_file := none }

/-- Name that is not a key of the optimizer registry. -/
def unknownName : String :=
  "NelderMead"

theorem call_lengths (ob : TrajectoryObserver) :
    ob.call.energies.length = ob.energies.length + 1 ∧
    ob.call.forces.length = ob.forces.length + 1 ∧
    ob.call.stresses.length = ob.stresses.length + 1 ∧
    ob.call.atom_positions.length = ob.atom_positions.length + 1 ∧
    ob.call.cells.length = ob.cells.length + 1 := by
  simp [TrajectoryObserver.call]

theorem call_atoms (ob : TrajectoryObserver) : ob.call.atoms = ob.atoms := by
  simp [TrajectoryObserver.call]

theorem stepAtoms_fields (f : Atoms → Atoms) (ob : TrajectoryObserver) :
    (stepAtoms f ob).atoms = f ob.atoms ∧
    (stepAtoms f ob).energies = ob.energies ∧
    (stepAtoms f ob).forces = ob.forces ∧
    (stepAtoms f ob).stresses = ob.stresses ∧
    (stepAtoms f ob).atom_positions = ob.atom_positions ∧
    (stepAtoms f ob).cells = ob.cells := by
  simp [stepAtoms]

theorem call_wf (ob : TrajectoryObserver) (h : ob.wf) : ob.call.wf := by
  obtain ⟨h1, h2, h3, h4⟩ := h
  refine ⟨?_, ?_, ?_, ?_⟩ <;> simp [TrajectoryObserver.call, h1, h2, h3, h4]

theorem stepAtoms_wf (f : Atoms → Atoms) (ob : TrajectoryObserver) (h : ob.wf) :
    (stepAtoms f ob).wf := by
  obtain ⟨h1, h2, h3, h4⟩ := h
  exact ⟨h1, h2, h3, h4⟩

theorem init_wf (atoms : Atoms) : (TrajectoryObserver.init atoms).wf := by
  exact ⟨rfl, rfl, rfl, rfl⟩

theorem applyObsOps_wf (ops : List ObsOp) :
    ∀ ob : TrajectoryObserver, ob.wf → (applyObsOps ops ob).wf := by
  induction ops with
  | nil => intro ob h; exact h
  | cons op ops ih =>
      intro ob h
      cases op with
      | capture => exact ih ob.call (call_wf ob h)
      | mutate f => exact ih (stepAtoms f ob) (stepAtoms_wf f ob h)

/-- C10: every `capture()` appends exactly one element to each of the five
internal sequences, and in every state reachable from a fresh observer by
captures and optimizer mutations the five sequences have equal length, equal
to the value of `length()`. -/
theorem capture_appends_one_and_lists_aligned :
    (∀ ob : TrajectoryObserver,
      ob.call.energies.length = ob.energies.length + 1 ∧
      ob.call.forces.length = ob.forces.length + 1 ∧
      ob.call.stresses.length = ob.stresses.length + 1 ∧
      ob.call.atom_positions.length = ob.atom_positions.length + 1 ∧
      ob.call.cells.length = ob.cells.length + 1) ∧
    (∀ (atoms : Atoms) (ops : List ObsOp),
      (applyObsOps ops (TrajectoryObserver.init atoms)).wf ∧
      (applyObsOps ops (TrajectoryObserver.init atoms)).len
        = (applyObsOps ops (TrajectoryObserver.init atoms)).energies.length) := by
  refine ⟨call_lengths, fun atoms ops => ⟨?_, rfl⟩⟩
  exact applyObsOps_wf ops _ (init_wf atoms)

theorem callObservers_len (interval n : Nat) (ob : TrajectoryObserver) :
    (callObservers interval n ob).energies.length
      = ob.energies.length + (if n % interval == 0 then 1 else 0) := by
  unfold callObservers
  split
  · simp [TrajectoryObserver.call]
  · simp

theorem callObservers_atoms (interval n : Nat) (ob : TrajectoryObserver) :
    (callObservers interval n ob).atoms = ob.atoms := by
  unfold callObservers
  split
  · exact call_atoms ob
  · rfl

theorem runAux_len (oc : OptClass) (fmax : Int) (interval : Nat) :
    ∀ (fuel nsteps : Nat) (ob : TrajectoryObserver),
      (runAux oc fmax interval fuel nsteps ob).energies.length
        = ob.energies.length + ticksAux oc fmax interval fuel nsteps ob.atoms := by
  intro fuel
  induction fuel with
  | zero => intro nsteps ob; simp [runAux, ticksAux]
  | succ k ih =>
      intro nsteps ob
      unfold runAux ticksAux
      by_cases h : oc.convergedAt ob.atoms fmax
      · simp [h]
      · have ha : (callObservers interval (nsteps + 1) (stepAtoms oc.stepf ob)).atoms
            = oc.stepf ob.atoms := by
          rw [callObservers_atoms]
          exact (stepAtoms_fields oc.stepf ob).1
        have hl : (callObservers interval (nsteps + 1) (stepAtoms oc.stepf ob)).energies.length
            = ob.energies.length + (if (nsteps + 1) % interval == 0 then 1 else 0) := by
          rw [callObservers_len]
          simp [stepAtoms]
        simp only [h, if_false, Bool.false_eq_true]
        rw [ih (nsteps + 1) (callObservers interval (nsteps + 1) (stepAtoms oc.stepf ob)), ha, hl]
        omega

/-- C2: after one driver run the trajectory record length is the number of
interval-triggered observer captures during the optimizer run plus exactly one
forced final capture. -/
theorem traj_len_eq_ticks_plus_one (oc : OptClass) (fmax : Int)
    (steps interval : Nat) (atoms : Atoms) (h : 1 ≤ interval) :
    (RelaxCalc.runObserver oc fmax steps interval atoms).len
      = loopTicks oc fmax steps interval atoms + 1 := by
  unfold RelaxCalc.runObserver TrajectoryObserver.len runLoop loopTicks
  rw [(call_lengths _).1, runAux_len, callObservers_atoms, callObservers_len]
  simp [TrajectoryObserver.init]

/-- Witness for C2 at a concrete run: interval 1, step cap 2, never-converging
optimizer; three interval captures plus the forced final capture give four. -/
theorem traj_len_eq_ticks_plus_one_witness :
    1 ≤ 1 ∧
    (RelaxCalc.runObserver sampleOptClass 1 2 1 sampleAtoms).len
      = loopTicks sampleOptClass 1 2 1 sampleAtoms + 1 ∧
    (RelaxCalc.runObserver sampleOptClass 1 2 1 sampleAtoms).len = 4 := by
  refine ⟨by decide, traj_len_eq_ticks_plus_one sampleOptClass 1 2 1 sampleAtoms (by decide), rfl⟩

theorem fsRead_fsWrite (fs : FS) (path : String) (b : Blob) :
    fsRead (fsWrite fs path b) path = some b := by
  simp [fsRead, fsWrite]

/-- C3: saving a trajectory record to a path and reading it back through the
same serialization scheme yields the five ordered sequences with identical
length and identical content, plus an atomic-number sequence whose length is
the structure's atom count; the write replaces any existing content at the
path (the statement holds for every prior file-system state `fs`). -/
theorem save_roundtrip (ob : TrajectoryObserver) (path : String) (fs : FS)
    (hwf : ob.wf) (hn : ob.atoms.atomicNumbers.length = ob.atoms.positions.length) :
    ∃ d : SavedDict,
      fsRead (ob.save path fs) path = some (pickleDump d) ∧
      pickleLoad (pickleDump d) = d ∧
      d.energy = ob.energies ∧ d.forces = ob.forces ∧ d.stresses = ob.stresses ∧
      d.atom_positions = ob.atom_positions ∧ d.cell = ob.cells ∧
      d.forces.length = d.energy.length ∧ d.stresses.length = d.energy.length ∧
      d.atom_positions.length = d.energy.length ∧ d.cell.length = d.energy.length ∧
      d.atomic_number.length = ob.atoms.positions.length := by
  obtain ⟨h1, h2, h3, h4⟩ := hwf
  refine ⟨ob.saveDict, ?_, rfl, rfl, rfl, rfl, rfl, rfl, h1, h2, h3, h4, ?_⟩
  · exact fsRead_fsWrite fs path (pickleDump ob.saveDict)
  · simpa [TrajectoryObserver.saveDict, Atoms.get_atomic_numbers] using hn

/-- Witness for C3 at a concrete record and a file system that already holds
older content at the same path, exhibiting the overwrite. -/
theorem save_roundtrip_witness :
    sampleOb.wf ∧
    sampleOb.atoms.atomicNumbers.length = sampleOb.atoms.positions.length ∧
    ∃ d : SavedDict,
      fsRead (sampleOb.save trajPath
          [(trajPath, pickleDump (TrajectoryObserver.init sampleAtoms).saveDict)]) trajPath
        = some (pickleDump d) ∧
      pickleLoad (pickleDump d) = d ∧
      d.energy = sampleOb.energies ∧ d.forces = sampleOb.forces ∧
      d.atomic_number.length = sampleOb.atoms.positions.length := by
  have hwf : sampleOb.wf := ⟨rfl, rfl, rfl, rfl⟩
  have hn : sampleOb.atoms.atomicNumbers.length = sampleOb.atoms.positions.length := rfl
  obtain ⟨d, hread, hload, he, hf, _, _, _, _, _, _, _, hlen⟩ :=
    save_roundtrip sampleOb trajPath
      [(trajPath, pickleDump (TrajectoryObserver.init sampleAtoms).saveDict)] hwf hn
  exact ⟨hwf, hn, d, hread, hload, he, hf, hlen⟩

theorem pyIdx_nonneg (n j : Nat) (h : j < n) : pyIdx n (j : Int) = some j := by
  unfold pyIdx
  rw [if_neg (by omega), if_pos (by exact_mod_cast h)]
  simp

theorem pyIdx_none (n : Nat) (i : Int) (h : i < -(n : Int) ∨ (n : Int) ≤ i) :
    pyIdx n i = none := by
  unfold pyIdx
  rcases h with h | h
  · rw [if_pos (by omega), if_neg (by omega)]
  · rw [if_neg (by omega), if_neg (by omega)]

theorem pyIdx_neg_shift (n : Nat) (i : Int) (h1 : -(n : Int) ≤ i) (h2 : i < 0) :
    pyIdx n i = pyIdx n (i + n) := by
  unfold pyIdx
  rw [if_pos h2, if_pos (by omega), if_neg (by omega), if_pos (by omega)]

theorem pyGet_nonneg (xs : List α) (j : Nat) (h : j < xs.length) :
    pyGet xs (j : Int) = xs.get? j := by
  unfold pyGet
  rw [pyIdx_nonneg xs.length j h]
  rfl

theorem pyGet_none (xs : List α) (i : Int)
    (h : i < -(xs.length : Int) ∨ (xs.length : Int) ≤ i) : pyGet xs i = none := by
  unfold pyGet
  rw [pyIdx_none xs.length i h]
  rfl

theorem pyGet_neg_shift (xs : List α) (i : Int) (h1 : -(xs.length : Int) ≤ i)
    (h2 : i < 0) : pyGet xs i = pyGet xs (i + xs.length) := by
  unfold pyGet
  rw [pyIdx_neg_shift xs.length i h1 h2]

/-- C6: on a well-formed record, `get(index)` returns the snapshot at the
index as the 5-tuple `(energy, forces, stress, cell, positions)`; every index
outside the record's range fails with the out-of-range result, and a negative
in-range index counts from the end, consistent with standard (Python) sequence
semantics. -/
theorem getitem_spec (ob : TrajectoryObserver) (i : Int) (h : ob.wf) :
    ((0 ≤ i ∧ i < (ob.len : Int)) →
      ∃ e f s c p, ob.getitem i = some (e, f, s, c, p) ∧
        ob.energies.get? i.toNat = some e ∧
        ob.forces.get? i.toNat = some f ∧
        ob.stresses.get? i.toNat = some s ∧
        ob.cells.get? i.toNat = some c ∧
        ob.atom_positions.get? i.toNat = some p) ∧
    ((i < -(ob.len : Int) ∨ (ob.len : Int) ≤ i) → ob.getitem i = none) ∧
    ((-(ob.len : Int) ≤ i ∧ i < 0) → ob.getitem i = ob.getitem (i + ob.len)) := by
  obtain ⟨h1, h2, h3, h4⟩ := h
  have hlen : ob.len = ob.energies.length := rfl
  refine ⟨?_, ?_, ?_⟩
  · rintro ⟨hi0, hiu⟩
    have hj : i = ((i.toNat : Nat) : Int) := (Int.toNat_of_nonneg hi0).symm
    have hjE : i.toNat < ob.energies.length := by omega
    have hjF : i.toNat < ob.forces.length := by omega
    have hjS : i.toNat < ob.stresses.length := by omega
    have hjC : i.toNat < ob.cells.length := by omega
    have hjP : i.toNat < ob.atom_positions.length := by omega
    obtain ⟨e, hE⟩ : ∃ e, ob.energies.get? i.toNat = some e :=
      ⟨ob.energies.get ⟨i.toNat, hjE⟩, List.get?_eq_get hjE⟩
    obtain ⟨f, hF⟩ : ∃ f, ob.forces.get? i.toNat = some f :=
      ⟨ob.forces.get ⟨i.toNat, hjF⟩, List.get?_eq_get hjF⟩
    obtain ⟨s, hS⟩ : ∃ s, ob.stresses.get? i.toNat = some s :=
      ⟨ob.stresses.get ⟨i.toNat, hjS⟩, List.get?_eq_get hjS⟩
    obtain ⟨c, hC⟩ : ∃ c, ob.cells.get? i.toNat = some c :=
      ⟨ob.cells.get ⟨i.toNat, hjC⟩, List.get?_eq_get hjC⟩
    obtain ⟨p, hP⟩ : ∃ p, ob.atom_positions.get? i.toNat = some p :=
      ⟨ob.atom_positions.get ⟨i.toNat, hjP⟩, List.get?_eq_get hjP⟩
    refine ⟨e, f, s, c, p, ?_, hE, hF, hS, hC, hP⟩
    rw [TrajectoryObserver.getitem, hj, pyGet_nonneg _ _ hjE, pyGet_nonneg _ _ hjF,
      pyGet_nonneg _ _ hjS, pyGet_nonneg _ _ hjC, pyGet_nonneg _ _ hjP,
      hE, hF, hS, hC, hP]
    rfl
  · intro hout
    rw [TrajectoryObserver.getitem, pyGet_none ob.energies i (by omega)]
    rfl
  · rintro ⟨hlo, hneg⟩
    have eE : pyGet ob.energies i = pyGet ob.energies (i + ob.len) :=
      pyGet_neg_shift ob.energies i (by omega) hneg
    have eF : pyGet ob.forces i = pyGet ob.forces (i + ob.len) := by
      have := pyGet_neg_shift ob.forces i (by omega) hneg
      rwa [h1] at this
    have eS : pyGet ob.stresses i = pyGet ob.stresses (i + ob.len) := by
      have := pyGet_neg_shift ob.stresses i (by omega) hneg
      rwa [h2] at this
    have eC : pyGet ob.cells i = pyGet ob.cells (i + ob.len) := by
      have := pyGet_neg_shift ob.cells i (by omega) hneg
      rwa [h4] at this
    have eP : pyGet ob.atom_positions i = pyGet ob.atom_positions (i + ob.len) := by
      have := pyGet_neg_shift ob.atom_positions i (by omega) hneg
      rwa [h3] at this
    rw [TrajectoryObserver.getitem, TrajectoryObserver.getitem, eE, eF, eS, eC, eP]

/-- Witness for C6 on a one-snapshot record: index 0 yields the snapshot and
index 1 is out of range. -/
theorem getitem_spec_witness :
    sampleOb.wf ∧
    (∃ e f s c p, sampleOb.getitem 0 = some (e, f, s, c, p) ∧
      sampleOb.energies.get? (0 : Int).toNat = some e ∧
      sampleOb.forces.get? (0 : Int).toNat = some f ∧
      sampleOb.stresses.get? (0 : Int).toNat = some s ∧
      sampleOb.cells.get? (0 : Int).toNat = some c ∧
      sampleOb.atom_positions.get? (0 : Int).toNat = some p) ∧
    sampleOb.getitem 1 = none := by
  have hwf : sampleOb.wf := ⟨rfl, rfl, rfl, rfl⟩
  refine ⟨hwf, ?_, ?_⟩
  · exact (getitem_spec sampleOb 0 hwf).1 ⟨le_refl 0, by decide⟩
  · exact (getitem_spec sampleOb 1 hwf).2.1 (Or.inr (by decide))

/-- C5: supplying an explicit null optimizer to `RelaxCalc.__init__` raises
`ValueError("Optimizer cannot be None")` at construction -- it is rejected,
not defaulted, before any other computation. -/
theorem null_optimizer_rejected (impls : OptImpls) (c : Calculator) (fmax : Int)
    (steps : Nat) (tf : Option String) (interval : Nat) :
    RelaxCalc.init impls c OptSpec.null fmax steps tf interval
      = Except.error (PyError.valueError errNoneMsg) := by
  rfl

/-- C1 is false on this code: `OPTIMIZERS.get(optimizer, None)` silently stores
`None` for an unknown optimizer name, so construction succeeds without any
configuration error, and the failure surfaces only inside `calc` as the
`TypeError` of calling `None`, raised at line 144 after the structure
conversion of line 138 has already run (the event trace ends in `wrapFilter`,
with `convertIn` before it and no result produced). -/
theorem unknown_optimizer_not_rejected_early :
    RelaxCalc.init sampleImpls sampleCalculator (OptSpec.name unknownName) 1 2 none 1
      = Except.ok rcUnknown ∧
    rcUnknown.optClass = none ∧
    (RelaxCalc.calc sampleLattice rcUnknown sampleStructure [] []).res
      = Except.error (PyError.typeError errNotCallable) ∧
    (RelaxCalc.calc sampleLattice rcUnknown sampleStructure [] []).events
      = [Ev.convertIn, Ev.setCalc, Ev.makeObs, Ev.wrapFilter] := by
  refine ⟨?_, rfl, rfl, rfl⟩
  rfl

/-- C4: whenever `calc` returns instead of raising, the returned mapping has
exactly the keys `final_structure, a, b, c, alpha, beta, gamma, volume` in
that order, the `final_structure` entry is a `Structure` (the caller's input
representation), and the seven remaining entries are numeric scalars. -/
theorem calc_result_complete (L : LatticeFns) (rc : RelaxCalcState) (struct : Structure)
    (fs : FS) (out : List String) (d : List (String × ResVal))
    (h : (RelaxCalc.calc L rc struct fs out).res = Except.ok d) :
    d.map Prod.fst = ["final_structure", "a", "b", "c", "alpha", "beta", "gamma", "volume"] ∧
    ∃ st xa xb xc xal xbe xga xvo, d =
      [("final_structure", ResVal.struct st),
       ("a", ResVal.num xa), ("b", ResVal.num xb), ("c", ResVal.num xc),
       ("alpha", ResVal.num xal), ("beta", ResVal.num xbe),
       ("gamma", ResVal.num xga), ("volume", ResVal.num xvo)] := by
  cases hoc : rc.optClass with
  | none => simp [RelaxCalc.calc, redirectStdout, hoc] at h
  | some oc =>
      simp only [RelaxCalc.calc, redirectStdout, hoc] at h
      rw [Except.ok.injEq] at h
      subst h
      exact ⟨rfl, _, _, _, _, _, _, _, _, rfl⟩

/-- Result mapping produced by `calc` on the concrete sample inputs. -/
def sampleDict : List (String × ResVal) :=
  [("final_structure", ResVal.struct sampleStructure),
   ("a", ResVal.num 1), ("b", ResVal.num 2), ("c", ResVal.num 3),
   ("alpha", ResVal.num 4), ("beta", ResVal.num 5), ("gamma", ResVal.num 6),
   ("volume", ResVal.num 7)]

/-- Witness for C4 at a concrete successful run. -/
theorem calc_result_complete_witness :
    (RelaxCalc.calc sampleLattice sampleRC sampleStructure [] []).res
      = Except.ok sampleDict ∧
    sampleDict.map Prod.fst
      = ["final_structure", "a", "b", "c", "alpha", "beta", "gamma", "volume"] := by
  have h : (RelaxCalc.calc sampleLattice sampleRC sampleStructure [] []).res
      = Except.ok sampleDict := by rfl
  exact ⟨h, (calc_result_complete sampleLattice sampleRC sampleStructure [] [] sampleDict h).1⟩

/-- C8: the driver never mutates the caller's structure: `calc` converts the
input to a fresh native copy at its boundary and relaxes that copy, so the
caller's object is unchanged on every path, error paths included. -/
theorem caller_structure_unchanged (L : LatticeFns) (rc : RelaxCalcState)
    (struct : Structure) (fs : FS) (out : List String) :
    (RelaxCalc.calc L rc struct fs out).structureAfter = struct := by
  cases hoc : rc.optClass <;> simp [RelaxCalc.calc, redirectStdout, hoc]

/-- C9: every call runs the optimizer under a scoped stdout redirection: the
process stdout is unchanged by the call (no logging output is produced) on the
normal and the error exit path alike, and the text the optimizer emits is
captured into the discarded buffer. -/
theorem stdout_suppressed_and_restored (L : LatticeFns) (rc : RelaxCalcState)
    (struct : Structure) (fs : FS) (out : List String) :
    (RelaxCalc.calc L rc struct fs out).stdout = out ∧
    (∀ oc, rc.optClass = some oc →
      (RelaxCalc.calc L rc struct fs out).captured = oc.output) ∧
    (rc.optClass = none →
      (RelaxCalc.calc L rc struct fs out).res
        = Except.error (PyError.typeError errNotCallable) ∧
      (RelaxCalc.calc L rc struct fs out).stdout = out) := by
  refine ⟨?_, ?_, ?_⟩
  · cases hoc : rc.optClass <;> simp [RelaxCalc.calc, redirectStdout, hoc]
  · intro oc hoc
    simp [RelaxCalc.calc, redirectStdout, hoc]
  · intro hoc
    simp [RelaxCalc.calc, redirectStdout, hoc]

/-- Witness for C9: a successful run and the error run both leave the prior
stdout content untouched, and the successful run captures the optimizer text. -/
theorem stdout_suppressed_and_restored_witness :
    (RelaxCalc.calc sampleLattice sampleRC sampleStructure [] ["prior line"]).stdout
      = ["prior line"] ∧
    (RelaxCalc.calc sampleLattice sampleRC sampleStructure [] ["prior line"]).captured
      = sampleOptClass.output ∧
    (RelaxCalc.calc sampleLattice rcUnknown sampleStructure [] ["prior line"]).stdout
      = ["prior line"] := by
  refine ⟨?_, ?_, ?_⟩
  · exact (stdout_suppressed_and_restored sampleLattice sampleRC sampleStructure []
      (["prior line"])).1
  · exact (stdout_suppressed_and_restored sampleLattice sampleRC sampleStructure []
      (["prior line"])).2.1 sampleOptClass rfl
  · exact ((stdout_suppressed_and_restored sampleLattice rcUnknown sampleStructure []
      (["prior line"])).2.2 rfl).2

/-- C7: with a null trajectory path `calc` performs no file write on any path
through the call; with a non-null path the record -- including the forced
final capture -- is pickled and written to that path exactly once, after the
optimizer run completes, as the event trace shows. -/
theorem traj_persistence (L : LatticeFns) (rc : RelaxCalcState) (struct : Structure)
    (fs : FS) (out : List String) :
    (rc.traj_file = none →
      (RelaxCalc.calc L rc struct fs out).fs = fs ∧
      Ev.saveTraj ∉ (RelaxCalc.calc L rc struct fs out).events) ∧
    (rc.optClass = none → (RelaxCalc.calc L rc struct fs out).fs = fs) ∧
    (∀ p oc, rc.traj_file = some p → rc.optClass = some oc →
      (RelaxCalc.calc L rc struct fs out).fs
        = fsWrite fs p (pickleDump
            (RelaxCalc.runObserver oc rc.fmax rc.steps rc.interval
              ((AseAtomsAdaptor.get_atoms struct).set_calculator rc.calculator)).saveDict) ∧
      (RelaxCalc.calc L rc struct fs out).events
        = [Ev.convertIn, Ev.setCalc, Ev.makeObs, Ev.wrapFilter, Ev.makeOpt, Ev.attachObs,
           Ev.runOpt, Ev.finalCapture, Ev.saveTraj, Ev.convertOut]) := by
  refine ⟨?_, ?_, ?_⟩
  · intro htf
    cases hoc : rc.optClass with
    | none =>
        constructor
        · simp [RelaxCalc.calc, redirectStdout, hoc]
        · simp only [RelaxCalc.calc, redirectStdout, hoc]
          decide
    | some oc =>
        constructor
        · simp [RelaxCalc.calc, redirectStdout, hoc, htf]
        · simp only [RelaxCalc.calc, redirectStdout, hoc, htf]
          decide
  · intro hoc
    simp [RelaxCalc.calc, redirectStdout, hoc]
  · intro p oc htf hoc
    constructor
    · simp [RelaxCalc.calc, redirectStdout, hoc, htf, TrajectoryObserver.save]
    · simp [RelaxCalc.calc, redirectStdout, hoc, htf]

/-- Witness for C7: the sample run without a trajectory path leaves the file
system empty, and the sample run with one writes exactly the pickled record. -/
theorem traj_persistence_witness :
    ((RelaxCalc.calc sampleLattice sampleRC sampleStructure [] []).fs = [] ∧
      Ev.saveTraj ∉ (RelaxCalc.calc sampleLattice sampleRC sampleStructure [] []).events) ∧
    (RelaxCalc.calc sampleLattice sampleRCsave sampleStructure [] []).fs
      = fsWrite [] trajPath (pickleDump
          (RelaxCalc.runObserver sampleOptClass sampleRCsave.fmax sampleRCsave.steps
            sampleRCsave.interval
            ((AseAtomsAdaptor.get_atoms sampleStructure).set_calculator
              sampleRCsave.calculator)).saveDict) ∧
    (RelaxCalc.calc sampleLattice sampleRCsave sampleStructure [] []).events
      = [Ev.convertIn, Ev.setCalc, Ev.makeObs, Ev.wrapFilter, Ev.makeOpt, Ev.attachObs,
         Ev.runOpt, Ev.finalCapture, Ev.saveTraj, Ev.convertOut] := by
  refine ⟨?_, ?_, ?_⟩
  · exact (traj_persistence sampleLattice sampleRC sampleStructure [] []).1 rfl
  · exact ((traj_persistence sampleLattice sampleRCsave sampleStructure [] []).2.2
      trajPath sampleOptClass rfl rfl).1
  · exact ((traj_persistence sampleLattice sampleRCsave sampleStructure [] []).2.2
      trajPath sampleOptClass rfl rfl).2

end Matcalc
